import Mathlib

/-!
Verification of the transfer-automation functions of this repository.

Each Python module under src/examples is shallowly embedded as Lean
definitions.  External services (the Transfer Family connector, DynamoDB,
S3, Secrets Manager, the remote SFTP server) are modelled as oracle
functions passed to the handlers; a raised Python exception is modelled
as an `Except.error`, and a caught one as a `match` on that value.
Environment variables are `Option String` arguments (`none` = unset).
-/

/-- Status values stored in the status-store record's `status` field
(src/examples/sftp-connector-automated-file-retrieve-dynamic/event_listener.py
and the static variant's event_listener.py). -/
inductive Status where
  | TRANSFER_STARTED
  | DISCOVERY_COMPLETED
  | COMPLETED
  | PARTIALLY_FAILED
  | FAILED
deriving DecidableEq, Repr

/-- Terminal statuses, per the spec's glossary: `COMPLETED`, `FAILED`,
`PARTIALLY_FAILED`. -/
def Status.isTerminal : Status → Bool
  | .COMPLETED => true
  | .PARTIALLY_FAILED => true
  | .FAILED => true
  | _ => false

/-- Abstract response bodies.  The Python code JSON-encodes small dicts
(json.dumps); we keep the payload structured instead of re-implementing
JSON text encoding, which is out of scope. -/
inductive Body where
  /-- a plain (non-JSON) string body -/
  | text (s : String)
  /-- json.dumps of a dict with a single `error` field -/
  | errField (msg : String)
  /-- json.dumps of a dict with a single `message` field -/
  | msgOnly (msg : String)
  /-- json.dumps of a dict with a `message` field and one named counter -/
  | msgCount (msg : String) (counterName : String) (count : Nat)
  /-- success payload of the directory-retrieve handler -/
  | retrievePayload (message transferId workflow_type : String)
      (processed_files : Nat) (file_paths : List String)
  /-- success payload of the dynamic-retrieve handler -/
  | dynamicPayload (message transferId : String) (files_found : Nat)
      (file_paths : List String)
deriving DecidableEq, Repr

/-- The `{statusCode, body}` dict every handler returns. -/
structure LambdaResponse where
  statusCode : Nat
  body : Body
deriving DecidableEq, Repr

/-- Python's `s.rstrip(sep)` for the single character `/`: drop every
trailing slash. -/
def rstripSlash (s : String) : String :=
  String.mk ((s.toList.reverse.dropWhile (fun c => c = '/')).reverse)

/-- Per-file outcome codes returned by the connector's
list_file_transfer_results call (the code only distinguishes
`COMPLETED` and `FAILED`; everything else is counted in neither bucket). -/
inductive FileStatusCode where
  | COMPLETED
  | FAILED
  | IN_PROGRESS
  | QUEUED
deriving DecidableEq, Repr

/-- One element of `FileTransferResults`: `f.get('StatusCode')` and
`f.get('Failure', dict()).get('Message')`, each possibly absent. -/
structure FileTransferResult where
  statusCode : Option FileStatusCode
  failureMessage : Option String
deriving DecidableEq, Repr

namespace DynamicListener

/-!
Embedding of
src/examples/sftp-connector-automated-file-retrieve-dynamic/event_listener.py.
-/

/-- The fields of a scanned DynamoDB item that lambda_handler reads
(lines 40-42): `batch_id`, optional `transfer_id` / `connector_id`, and
the `status` the scan filters on. -/
structure TransferRecord where
  batch_id : String
  transfer_id : Option String
  connector_id : Option String
  status : Status
deriving DecidableEq, Repr

/-- successful_files (line 58): results whose StatusCode is COMPLETED. -/
def successful_files (file_results : List FileTransferResult) : List FileTransferResult :=
  file_results.filter (fun f => decide (f.statusCode = some FileStatusCode.COMPLETED))

/-- failed_files (line 59): results whose StatusCode is FAILED. -/
def failed_files (file_results : List FileTransferResult) : List FileTransferResult :=
  file_results.filter (fun f => decide (f.statusCode = some FileStatusCode.FAILED))

/-- Lines 63-70: the aggregate classification of one transfer's per-file
results; `none` models the `continue` ("still in progress") branch. -/
def determineStatus (file_results : List FileTransferResult) : Option Status :=
  if (failed_files file_results).length = 0 ∧ 0 < (successful_files file_results).length then
    some Status.COMPLETED
  else if 0 < (failed_files file_results).length then
    some (if 0 < (successful_files file_results).length then
            Status.PARTIALLY_FAILED
          else Status.FAILED)
  else
    none

/-- Lines 73-85: the update_data dict written for a classified transfer.
`now` stands for datetime.utcnow().isoformat(). -/
structure UpdateData where
  status : Status
  updated_at : String
  completed_at : String
  files_successful : Nat
  files_failed : Nat
  files_total : Nat
  error_messages : Option (List String)
deriving DecidableEq, Repr

/-- Builds update_data from the classification and the per-file results
(lines 73-85). -/
def mkUpdateData (now : String) (new_status : Status)
    (file_results : List FileTransferResult) : UpdateData :=
  { status := new_status
    updated_at := now
    completed_at := now
    files_successful := (successful_files file_results).length
    files_failed := (failed_files file_results).length
    files_total := file_results.length
    error_messages :=
      if (failed_files file_results).length = 0 then none
      else some ((failed_files file_results).map
        (fun f => f.failureMessage.getD "Unknown error")) }

/-- The body of the per-record loop (lines 39-103) WITHOUT its
try/except: `listResults` is the connector's list_file_transfer_results
call and `updateItem` the DynamoDB update_item call, either of which may
raise.  Returns the applied update, `none` when the record is skipped
(missing ids, or still in progress). -/
def checkTransferRaw
    (listResults : String → String → Except String (List FileTransferResult))
    (updateItem : String → UpdateData → Except String Unit)
    (now : String) (t : TransferRecord) :
    Except String (Option (String × UpdateData)) :=
  match t.transfer_id, t.connector_id with
  | some transfer_id, some connector_id =>
    match listResults connector_id transfer_id with
    | .error e => .error e
    | .ok file_results =>
      match determineStatus file_results with
      | none => .ok none
      | some new_status =>
        let u := mkUpdateData now new_status file_results
        match updateItem t.batch_id u with
        | .error e => .error e
        | .ok _ => .ok (some (t.batch_id, u))
  | _, _ => .ok none

/-- The per-record try/except of lines 48-107: any exception from the
body is caught and logged and the record contributes nothing. -/
def checkTransfer
    (listResults : String → String → Except String (List FileTransferResult))
    (updateItem : String → UpdateData → Except String Unit)
    (now : String) (t : TransferRecord) : Option (String × UpdateData) :=
  match checkTransferRaw listResults updateItem now t with
  | .error _ => none
  | .ok r => r

/-- Semantics of the scan's FilterExpression
`#status IN (:started, :discovery)` (lines 27-34). -/
def pendingFilter (t : TransferRecord) : Bool :=
  decide (t.status = Status.TRANSFER_STARTED ∨ t.status = Status.DISCOVERY_COMPLETED)

/-- One reconciliation pass over the table contents: the DynamoDB scan
filter selects the pending records and the loop of lines 39-107 runs on
each; the result lists the updates applied. -/
def statusCheckPass
    (listResults : String → String → Except String (List FileTransferResult))
    (updateItem : String → UpdateData → Except String Unit)
    (now : String) (records : List TransferRecord) : List (String × UpdateData) :=
  (records.filter pendingFilter).filterMap (checkTransfer listResults updateItem now)

/-- lambda_handler (lines 10-122).  `table_env` is os.environ.get of the
table-name variable; `scan` is the table's contents (`.error` when the
scan call itself raises).  boto3 client construction is modelled as
infallible.  Returns the response together with the updates applied. -/
def lambda_handler (table_env : Option String)
    (scan : Except String (List TransferRecord))
    (listResults : String → String → Except String (List FileTransferResult))
    (updateItem : String → UpdateData → Except String Unit)
    (now : String) : LambdaResponse × List (String × UpdateData) :=
  match table_env with
  | none => (⟨200, Body.text "DynamoDB not configured"⟩, [])
  | some _ =>
    match scan with
    | .error e => (⟨500, Body.errField e⟩, [])
    | .ok records =>
      let pending := records.filter pendingFilter
      (⟨200, Body.msgCount "Transfer status check completed" "transfers_checked"
          pending.length⟩,
        pending.filterMap (checkTransfer listResults updateItem now))

end DynamicListener

namespace StaticListener

/-!
Embedding of
src/examples/sftp-connector-automated-file-retrieve-static/event_listener.py.
Timestamps are modelled as epoch seconds (Int): `started_at` is the
parsed ISO timestamp of the record, `now` is datetime.now, and
`(now - started_at).total_seconds()` becomes integer subtraction.
-/

/-- Module-scope initialisation (line 8):
`table = dynamodb.Table(os.environ[...])` raises a KeyError at import
when the table-name variable is unset. -/
def moduleInit (table_env : Option String) : Except String String :=
  match table_env with
  | none => .error "KeyError: DYNAMODB_TABLE"
  | some t => .ok t

/-- The fields of a scanned item that handle_status_check reads
(lines 61-72): `batch_id`, `status`, `started_at`, and the optional
`files_count` (item.get with default 0). -/
structure StaticRecord where
  batch_id : String
  status : Status
  started_at : Int
  files_count : Option Nat
deriving DecidableEq, Repr

/-- The update_data dict of lines 74-80. -/
structure StaticUpdate where
  status : Status
  files_successful : Nat
  files_failed : Nat
  completed_at : Int
  updated_at : Int
deriving DecidableEq, Repr

/-- The per-record decision of lines 66-80: if the transfer has run for
more than 120 seconds, build the COMPLETED update from the record's
stored files_count; otherwise do nothing. -/
def staticRecordUpdate (now : Int) (item : StaticRecord) : Option StaticUpdate :=
  if now - item.started_at > 120 then
    some { status := Status.COMPLETED
           files_successful := item.files_count.getD 0
           files_failed := 0
           completed_at := now
           updated_at := now }
  else
    none

/-- The loop of lines 60-99.  Unlike the dynamic listener there is no
per-record try/except here: a failing update_item raises out of the
whole pass.  Returns transfers_checked together with the applied
updates. -/
def runStaticUpdates (updateItem : String → StaticUpdate → Except String Unit)
    (now : Int) :
    List StaticRecord → Except String (Nat × List (String × StaticUpdate))
  | [] => .ok (0, [])
  | item :: rest =>
    match staticRecordUpdate now item with
    | none => runStaticUpdates updateItem now rest
    | some u =>
      match updateItem item.batch_id u with
      | .error e => .error e
      | .ok _ =>
        match runStaticUpdates updateItem now rest with
        | .error e => .error e
        | .ok (n, us) => .ok (n + 1, (item.batch_id, u) :: us)

/-- handle_status_check (lines 45-111).  `scan` is the table contents;
the scan's FilterExpression `#status = :status` with value
TRANSFER_STARTED is its selection semantics.  Any exception is
re-raised (line 111). -/
def handle_status_check (scan : Except String (List StaticRecord))
    (updateItem : String → StaticUpdate → Except String Unit) (now : Int) :
    Except String (LambdaResponse × List (String × StaticUpdate)) :=
  match scan with
  | .error e => .error e
  | .ok records =>
    let pending := records.filter (fun r => decide (r.status = Status.TRANSFER_STARTED))
    match runStaticUpdates updateItem now pending with
    | .error e => .error e
    | .ok (n, us) =>
      .ok (⟨200, Body.msgCount "Transfer status check completed" "transfers_checked" n⟩,
        us)

/-- The fields of the incoming event the module reads: `source` and
`detail.transferId` (detail.connectorId is read but unused). -/
structure EventModel where
  source : Option String
  detail_transferId : Option String
  detail_connectorId : Option String
deriving DecidableEq, Repr

/-- handle_transfer_event (lines 26-43): always a 200 response. -/
def handle_transfer_event (ev : EventModel) : LambdaResponse :=
  match ev.detail_transferId with
  | none => ⟨200, Body.msgOnly "No transfer ID found"⟩
  | some transfer_id =>
    ⟨200, Body.msgOnly ("Transfer event processed for " ++ transfer_id)⟩

/-- lambda_handler (lines 10-24): dispatch on the event source; any
exception from either branch is caught and turned into a 500 response. -/
def lambda_handler (ev : EventModel) (scan : Except String (List StaticRecord))
    (updateItem : String → StaticUpdate → Except String Unit) (now : Int) :
    LambdaResponse × List (String × StaticUpdate) :=
  if ev.source = some "aws.transfer" then
    (handle_transfer_event ev, [])
  else
    match handle_status_check scan updateItem now with
    | .error e => (⟨500, Body.errField e⟩, [])
    | .ok (resp, us) => (resp, us)

end StaticListener

namespace RetrieveIndex

/-!
Embedding of src/examples/sftp-connector-automated-file-retrieve/index.py.
-/

/-- Outcome of `sftp.stat(file_path)` for one directory entry: either a
stat structure carrying st_mode, or a raised exception. -/
inductive StatOutcome where
  | ok (st_mode : Nat)
  | raised
deriving DecidableEq, Repr

/-- One entry of `sftp.listdir(directory_path)` together with the
outcome of the stat query on its full path. -/
structure DirEntry where
  filename : String
  statResult : StatOutcome
deriving DecidableEq, Repr

/-- The full path built at line 55:
directory_path.rstrip of slash, then slash, then filename. -/
def entryPath (directory_path : String) (filename : String) : String :=
  rstripSlash directory_path ++ "/" ++ filename

/-- Lines 56-63: an entry whose stat succeeded with the directory bit
(0o040000) set in st_mode was identified as a directory. -/
def identifiedAsDirectory (e : DirEntry) : Bool :=
  match e.statResult with
  | .ok st_mode => decide (¬ st_mode &&& 0o040000 = 0)
  | .raised => false

/-- Lines 56-63: the entry is appended when its st_mode has no directory
bit, or when the stat call raised (assume-it-is-a-file fallback). -/
def keepsEntry (e : DirEntry) : Bool :=
  match e.statResult with
  | .ok st_mode => decide (st_mode &&& 0o040000 = 0)
  | .raised => true

/-- The files accumulated by the loop of lines 51-63. -/
def collectFiles (directory_path : String) (entries : List DirEntry) : List String :=
  entries.filterMap (fun e =>
    if keepsEntry e then some (entryPath directory_path e.filename) else none)

/-- The three external effects list_directory_files performs, in order:
ssh.connect (covering endpoint parsing and key loading, lines 26-45),
ssh.open_sftp (line 48), and sftp.listdir (line 53) whose success also
fixes the entries and their stat outcomes. -/
structure SftpWorld where
  connectOk : Bool
  openSftpOk : Bool
  listdirResult : Except String (List DirEntry)
deriving Repr

/-- Which sessions were opened and closed by the time the function
returned. -/
structure SessionState where
  sshOpened : Bool
  sshClosed : Bool
  sftpOpened : Bool
  sftpClosed : Bool
deriving DecidableEq, Repr

/-- list_directory_files (lines 23-78).  The inner try/finally
(lines 52-72) closes both sessions whenever listdir was reached; the
outer except (line 76) returns an empty list for a connect or open_sftp
failure, and on the open_sftp failure path the connected SSH session is
not closed by any code path. -/
def list_directory_files (w : SftpWorld) (directory_path : String) :
    List String × SessionState :=
  if w.connectOk then
    if w.openSftpOk then
      match w.listdirResult with
      | .ok entries =>
        (collectFiles directory_path entries, ⟨true, true, true, true⟩)
      | .error _ => ([], ⟨true, true, true, true⟩)
    else
      ([], ⟨true, false, false, false⟩)
  else
    ([], ⟨false, false, false, false⟩)

/-- The structured secret of get_sftp_credentials (lines 12-21). -/
structure Credentials where
  username : String
  password : Option String
  private_key : Option String
deriving DecidableEq, Repr

/-- The environment variables handler reads (lines 86-92).  The two
read with os.environ brackets are required; the rest use os.environ.get
(S3_DESTINATION_PREFIX, WORKFLOW_TYPE, SOURCE_DIRECTORY with defaults;
SFTP_ENDPOINT, SFTP_SECRET_ARN without). -/
structure RetrieveEnv where
  connector_id_env : Option String
  bucket_name_env : Option String
  dest_pre_env : Option String
  workflow_type_env : Option String
  source_directory_env : Option String
  sftp_endpoint_env : Option String
  secret_arn_env : Option String
deriving DecidableEq, Repr

/-- handler (lines 80-153).  `get_creds` is get_sftp_credentials (may
raise), `w` drives list_directory_files, `start_transfer` is the
connector's start_file_transfer taking RetrieveFilePaths and
LocalDirectoryPath.  The outer except re-raises (line 153), so every
raised exception is an `Except.error` of the whole handler. -/
def handler (env : RetrieveEnv)
    (get_creds : String → Except String Credentials)
    (w : SftpWorld)
    (start_transfer : List String → String → Except String String) :
    Except String LambdaResponse :=
  match env.connector_id_env, env.bucket_name_env with
  | some _connector_id, some bucket_name =>
    let dest_pre := rstripSlash (env.dest_pre_env.getD "retrieved")
    let workflow_type := env.workflow_type_env.getD "static"
    let source_directory := env.source_directory_env.getD "/uploads"
    let s3_destination := "/" ++ bucket_name ++ "/" ++ dest_pre
    if workflow_type = "directory" then
      match env.secret_arn_env, env.sftp_endpoint_env with
      | some secret_arn, some _endpoint =>
        match get_creds secret_arn with
        | .error e => .error e
        | .ok _credentials =>
          let retrieve_file_paths := (list_directory_files w source_directory).1
          if retrieve_file_paths.isEmpty then
            .ok ⟨200, Body.msgCount
              ("No files found in directory " ++ source_directory)
              "processed_files" 0⟩
          else
            match start_transfer retrieve_file_paths s3_destination with
            | .error e => .error e
            | .ok transfer_id =>
              .ok ⟨200, Body.retrievePayload "File retrieval started successfully"
                transfer_id workflow_type retrieve_file_paths.length
                retrieve_file_paths⟩
      | _, _ =>
        .error "SFTP_SECRET_ARN and SFTP_ENDPOINT are required for directory workflow"
    else
      .error "Invalid workflow configuration"
  | none, _ => .error "KeyError: CONNECTOR_ID"
  | some _, none => .error "KeyError: S3_BUCKET_NAME"

end RetrieveIndex

namespace SendIndex

/-!
Embedding of src/examples/sftp-connector-automated-file-send/index.py.
-/

/-- The arguments of the start_file_transfer call at lines 7-10:
ConnectorId and SendFilePaths. -/
structure SendCall where
  connectorId : String
  sendFilePaths : List String
deriving DecidableEq, Repr

/-- handler (lines 5-17).  The event carries `detail.bucket.name` and
`detail.object.key`; `connector_id_env` is os.environ of CONNECTOR_ID
(a bracket read, so a KeyError when unset); `start` is the connector's
start_file_transfer returning a TransferId.  There is no try/except in
this module, so every exception propagates; on success the result also
records the one call made. -/
def handler (connector_id_env : Option String)
    (start : SendCall → Except String String)
    (source_bucket source_key : String) :
    Except String (LambdaResponse × List SendCall) :=
  match connector_id_env with
  | none => .error "KeyError: CONNECTOR_ID"
  | some connector_id =>
    let call : SendCall := ⟨connector_id, ["/" ++ source_bucket ++ "/" ++ source_key]⟩
    match start call with
    | .error e => .error e
    | .ok _transfer_id => .ok (⟨200, Body.text "Transfer initiated"⟩, [call])

end SendIndex

namespace DynamicIndex

/-!
Embedding of
src/examples/sftp-connector-automated-file-retrieve-dynamic/index.py.
-/

/-- The external calls the module can make, recorded as a trace.
`updateRecord` stands for a status-store write; the module makes none,
and the constructor exists so that absence of record updates is a
statement about the trace rather than about the missing call. -/
inductive DynCall where
  | startDirectoryListing (remoteDir outputPath : String)
  | sleepSeconds (n : Nat)
  | listObjectsV2 (bucket keyPath : String)
  | getObject (key : String)
  | startFileTransfer (paths : List String)
  | deleteObject (key : String)
  | describeExecution (listingId : String)
  | updateRecord (batch_id : String)
deriving DecidableEq, Repr

/-- Is the call a start_file_transfer? -/
def isStartFileTransfer : DynCall → Bool
  | .startFileTransfer _ => true
  | _ => false

/-- Is the call a describe_execution (the probe of the polling loop)? -/
def isDescribeExecution : DynCall → Bool
  | .describeExecution _ => true
  | _ => false

/-- Is the call a status-record write? -/
def isUpdateRecord : DynCall → Bool
  | .updateRecord _ => true
  | _ => false

/-- Outcome of one describe_execution probe inside list_directory_files
(lines 27-52): COMPLETED with the parsed FilePaths of the LIST step,
FAILED or EXCEPTION, or any other status (keep polling). -/
inductive ListingPollStatus where
  | completedWith (files : List String)
  | failedExec
  | stillRunning
deriving DecidableEq, Repr

/-- The while-loop of lines 26-55, recursing on the remaining attempts
(max_attempts - attempt); `describe` gives the status seen at each
attempt.  Returns the files and the trace of calls the loop makes. -/
def pollLoop (describe : Nat → ListingPollStatus) (listing_id : String) :
    Nat → Nat → List String × List DynCall
  | 0, _ => ([], [])
  | _fuel + 1, attempt =>
    match describe attempt with
    | .completedWith files => (files, [.describeExecution listing_id])
    | .failedExec => ([], [.describeExecution listing_id])
    | .stillRunning =>
      let rest := pollLoop describe listing_id _fuel (attempt + 1)
      (rest.1, .describeExecution listing_id :: .sleepSeconds 2 :: rest.2)

/-- list_directory_files (lines 9-62): the bounded polling loop with
max_attempts = 30 starting at attempt 0; falling out of the loop is the
timeout that returns an empty list. -/
def list_directory_files (describe : Nat → ListingPollStatus)
    (listing_id : String) : List String × List DynCall :=
  pollLoop describe listing_id 30 0

/-- lambda_handler (lines 64-153).  Oracles: `sdl` is
start_directory_listing (returns a ListingId); `lov2` is
s3 list_objects_v2, `.ok none` meaning the response had no Contents key
and `.ok (some k)` meaning Contents[0].Key = k; `getObj` is get_object
plus JSON parsing, returning the filePath list; `sft` is
start_file_transfer; `delObj` is delete_object (its failure is caught
and only warned about, line 138).  The outer except re-raises
(line 153).  Returns the outcome and the trace of calls made. -/
def lambda_handler (connector_id_env bucket_env : Option String)
    (s3_pre_env source_directory_env : Option String)
    (sdl : String → String → Except String String)
    (lov2 : String → String → Except String (Option String))
    (getObj : String → Except String (List String))
    (sft : List String → Except String String)
    (delObj : String → Except String Unit) :
    Except String LambdaResponse × List DynCall :=
  match connector_id_env, bucket_env with
  | some connector_id, some bucket_name =>
    let s3_pre := rstripSlash (s3_pre_env.getD "retrieved")
    let source_directory := source_directory_env.getD "/uploads"
    let s3_destination := "/" ++ bucket_name ++ "/" ++ s3_pre
    match sdl source_directory s3_destination with
    | .error e =>
      (.error e, [.startDirectoryListing source_directory s3_destination])
    | .ok listing_id =>
      let listingKeyPath := s3_pre ++ "/" ++ connector_id ++ "-" ++ listing_id ++ ".json"
      let trace0 : List DynCall :=
        [.startDirectoryListing source_directory s3_destination,
         .sleepSeconds 5, .listObjectsV2 bucket_name listingKeyPath]
      match lov2 bucket_name listingKeyPath with
      | .error e => (.error e, trace0)
      | .ok none =>
        (.ok ⟨200, Body.msgOnly "Directory listing in progress"⟩, trace0)
      | .ok (some listing_key) =>
        match getObj listing_key with
        | .error e => (.error e, trace0 ++ [.getObject listing_key])
        | .ok file_paths =>
          if file_paths.isEmpty then
            (.ok ⟨200, Body.msgCount "No files found" "files_found" 0⟩,
              trace0 ++ [.getObject listing_key])
          else
            match sft file_paths with
            | .error e =>
              (.error e,
                trace0 ++ [.getObject listing_key, .startFileTransfer file_paths])
            | .ok transfer_id =>
              let traceFinal := trace0 ++
                [.getObject listing_key, .startFileTransfer file_paths,
                 .deleteObject listing_key]
              (.ok ⟨200, Body.dynamicPayload "Dynamic file retrieval started"
                  transfer_id file_paths.length file_paths⟩,
                match delObj listing_key with
                | .error _ => traceFinal
                | .ok _ => traceFinal)
  | none, _ => (.error "KeyError: CONNECTOR_ID", [])
  | some _, none => (.error "KeyError: S3_BUCKET", [])

end DynamicIndex

/-! Helper lemmas shared by the claim theorems. -/

/-- A successful per-record check updates the record it was given:
the key of the emitted update is that record's batch_id. -/
theorem DynamicListener.checkTransferRaw_key
    (listResults : String → String → Except String (List FileTransferResult))
    (updateItem : String → DynamicListener.UpdateData → Except String Unit)
    (now : String) (t : DynamicListener.TransferRecord)
    (p : String × DynamicListener.UpdateData)
    (h : DynamicListener.checkTransferRaw listResults updateItem now t = .ok (some p)) :
    p.1 = t.batch_id := by
  obtain ⟨bid, tidf, cidf, st⟩ := t
  cases tidf with
  | none => simp [DynamicListener.checkTransferRaw] at h
  | some tid =>
    cases cidf with
    | none => simp [DynamicListener.checkTransferRaw] at h
    | some cid =>
      simp only [DynamicListener.checkTransferRaw] at h
      cases hlr : listResults cid tid with
      | error e => simp only [hlr] at h; cases h
      | ok frs =>
        simp only [hlr] at h
        cases hds : DynamicListener.determineStatus frs with
        | none => simp only [hds] at h; cases h
        | some ns =>
          simp only [hds] at h
          cases hui : updateItem bid (DynamicListener.mkUpdateData now ns frs) with
          | error e => simp only [hui] at h; cases h
          | ok _ =>
            simp only [hui] at h
            cases h
            rfl

/-- A successful per-record check updates the record it was given:
the key of the emitted update is that record's batch_id. -/
theorem DynamicListener.checkTransfer_key
    (listResults : String → String → Except String (List FileTransferResult))
    (updateItem : String → DynamicListener.UpdateData → Except String Unit)
    (now : String) (t : DynamicListener.TransferRecord)
    (p : String × DynamicListener.UpdateData)
    (h : DynamicListener.checkTransfer listResults updateItem now t = some p) :
    p.1 = t.batch_id := by
  unfold DynamicListener.checkTransfer at h
  cases hraw : DynamicListener.checkTransferRaw listResults updateItem now t with
  | error e => rw [hraw] at h; cases h
  | ok r =>
    rw [hraw] at h
    simp only at h
    subst h
    exact DynamicListener.checkTransferRaw_key _ _ _ _ _ hraw

/-- An entry the loop keeps was not identified as a directory. -/
theorem RetrieveIndex.keepsEntry_not_dir (e : RetrieveIndex.DirEntry)
    (h : RetrieveIndex.keepsEntry e = true) :
    RetrieveIndex.identifiedAsDirectory e = false := by
  obtain ⟨fn, st⟩ := e
  cases st with
  | ok m =>
    simp [RetrieveIndex.keepsEntry] at h
    simp [RetrieveIndex.identifiedAsDirectory, h]
  | raised => rfl

/-- Every update emitted by the static loop comes from a scanned record
of the processed list, via staticRecordUpdate. -/
theorem StaticListener.runStaticUpdates_mem
    (updateItem : String → StaticListener.StaticUpdate → Except String Unit)
    (now : Int) (l : List StaticListener.StaticRecord) :
    ∀ n us, StaticListener.runStaticUpdates updateItem now l = .ok (n, us) →
      ∀ p ∈ us, ∃ item ∈ l, p.1 = item.batch_id ∧
        StaticListener.staticRecordUpdate now item = some p.2 := by
  induction l with
  | nil =>
    intro n us h p hp
    simp only [StaticListener.runStaticUpdates] at h
    cases h
    simp at hp
  | cons item rest ih =>
    intro n us h p hp
    unfold StaticListener.runStaticUpdates at h
    cases hu : StaticListener.staticRecordUpdate now item with
    | none =>
      simp only [hu] at h
      obtain ⟨it, hit, hk, hs⟩ := ih n us h p hp
      exact ⟨it, List.mem_cons_of_mem _ hit, hk, hs⟩
    | some u =>
      simp only [hu] at h
      cases hui : updateItem item.batch_id u with
      | error e => simp only [hui] at h; cases h
      | ok _ =>
        simp only [hui] at h
        cases hr : StaticListener.runStaticUpdates updateItem now rest with
        | error e => simp only [hr] at h; cases h
        | ok pr =>
          obtain ⟨n', us'⟩ := pr
          simp only [hr] at h
          cases h
          rcases List.mem_cons.mp hp with hpe | hpm
          · subst hpe; exact ⟨item, List.mem_cons_self _ _, rfl, hu⟩
          · obtain ⟨it, hit, hk, hs⟩ := ih n' us' hr p hpm
            exact ⟨it, List.mem_cons_of_mem _ hit, hk, hs⟩

/-- Every entered run of the polling loop makes a describe_execution
probe as its first external call. -/
theorem DynamicIndex.pollLoop_head (describe : Nat → DynamicIndex.ListingPollStatus)
    (listing_id : String) (fuel attempt : Nat) :
    (DynamicIndex.pollLoop describe listing_id (fuel + 1) attempt).2.head? =
      some (DynamicIndex.DynCall.describeExecution listing_id) := by
  cases h : describe attempt <;> simp [DynamicIndex.pollLoop, h]

/-! Claim theorems. -/

/-- C1: for every reconciliation pass over a pending transfer record,
given the per-file results from the connector, the aggregate
classification is: zero failed and some successful gives COMPLETED;
some failed and some successful gives PARTIALLY_FAILED; some failed and
none successful gives FAILED; and with both counts zero the record is
skipped with no state change (the per-record check emits no update). -/
theorem C1_classification (rs : List FileTransferResult) :
    ((DynamicListener.failed_files rs).length = 0 →
      0 < (DynamicListener.successful_files rs).length →
      DynamicListener.determineStatus rs = some Status.COMPLETED) ∧
    (0 < (DynamicListener.failed_files rs).length →
      0 < (DynamicListener.successful_files rs).length →
      DynamicListener.determineStatus rs = some Status.PARTIALLY_FAILED) ∧
    (0 < (DynamicListener.failed_files rs).length →
      (DynamicListener.successful_files rs).length = 0 →
      DynamicListener.determineStatus rs = some Status.FAILED) ∧
    ((DynamicListener.failed_files rs).length = 0 →
      (DynamicListener.successful_files rs).length = 0 →
      DynamicListener.determineStatus rs = none) ∧
    (∀ listResults updateItem now (t : DynamicListener.TransferRecord) tid cid,
      t.transfer_id = some tid → t.connector_id = some cid →
      listResults cid tid = .ok rs →
      (DynamicListener.failed_files rs).length = 0 →
      (DynamicListener.successful_files rs).length = 0 →
      DynamicListener.checkTransfer listResults updateItem now t = none) := by
  have hnone : (DynamicListener.failed_files rs).length = 0 →
      (DynamicListener.successful_files rs).length = 0 →
      DynamicListener.determineStatus rs = none := by
    intro hf hs
    unfold DynamicListener.determineStatus
    split_ifs <;> first | rfl | omega
  refine ⟨?_, ?_, ?_, hnone, ?_⟩
  · intro hf hs
    unfold DynamicListener.determineStatus
    split_ifs <;> first | rfl | omega
  · intro hf hs
    unfold DynamicListener.determineStatus
    split_ifs <;> first | rfl | omega
  · intro hf hs
    unfold DynamicListener.determineStatus
    split_ifs <;> first | rfl | omega
  · intro listResults updateItem now t tid cid h1 h2 h3 hf hs
    obtain ⟨bid, tidf, cidf, st⟩ := t
    simp only at h1 h2
    subst h1; subst h2
    unfold DynamicListener.checkTransfer DynamicListener.checkTransferRaw
    simp only [h3, hnone hf hs]

/-- C1 witness: concrete per-file result lists exercising each branch of
the classification, and a record skipped when the connector reports no
completed and no failed files. -/
theorem C1_classification_witness :
    DynamicListener.determineStatus
      [⟨some FileStatusCode.COMPLETED, none⟩, ⟨some FileStatusCode.COMPLETED, none⟩] =
      some Status.COMPLETED ∧
    DynamicListener.determineStatus
      [⟨some FileStatusCode.COMPLETED, none⟩, ⟨some FileStatusCode.FAILED, some "e"⟩] =
      some Status.PARTIALLY_FAILED ∧
    DynamicListener.determineStatus [⟨some FileStatusCode.FAILED, none⟩] =
      some Status.FAILED ∧
    DynamicListener.determineStatus [] = none ∧
    DynamicListener.checkTransfer (fun _ _ => .ok []) (fun _ _ => .ok ())
      "2025-01-01T00:00:00" ⟨"b0", some "t-1", some "c-1", Status.TRANSFER_STARTED⟩ =
      none :=
  ⟨(C1_classification _).1 (by decide) (by decide),
   (C1_classification _).2.1 (by decide) (by decide),
   (C1_classification _).2.2.1 (by decide) (by decide),
   (C1_classification _).2.2.2.1 (by decide) (by decide),
   (C1_classification []).2.2.2.2 _ _ "2025-01-01T00:00:00"
     ⟨"b0", some "t-1", some "c-1", Status.TRANSFER_STARTED⟩ "t-1" "c-1"
     rfl rfl rfl (by decide) (by decide)⟩

/-- C2: in both reconciliation variants a record in a terminal status is
never selected by the scan filter, and every update the pass applies is
keyed to a scanned record whose status was non-terminal (dynamic:
TRANSFER_STARTED or DISCOVERY_COMPLETED, static: TRANSFER_STARTED). -/
theorem C2_terminal_never_updated :
    (∀ listResults updateItem now (records : List DynamicListener.TransferRecord),
      (∀ t ∈ records.filter DynamicListener.pendingFilter,
        t.status.isTerminal = false) ∧
      (∀ p ∈ DynamicListener.statusCheckPass listResults updateItem now records,
        ∃ t ∈ records, p.1 = t.batch_id ∧
          (t.status = Status.TRANSFER_STARTED ∨ t.status = Status.DISCOVERY_COMPLETED) ∧
          t.status.isTerminal = false)) ∧
    (∀ (now : Int) updateItem (records : List StaticListener.StaticRecord),
      (∀ r ∈ records.filter (fun r => decide (r.status = Status.TRANSFER_STARTED)),
        r.status.isTerminal = false) ∧
      (∀ resp us, StaticListener.handle_status_check (.ok records) updateItem now =
          .ok (resp, us) →
        ∀ p ∈ us, ∃ r ∈ records, p.1 = r.batch_id ∧
          r.status = Status.TRANSFER_STARTED ∧ r.status.isTerminal = false)) := by
  constructor
  · intro listResults updateItem now records
    constructor
    · intro t ht
      obtain ⟨_, hp⟩ := List.mem_filter.mp ht
      rw [DynamicListener.pendingFilter, decide_eq_true_eq] at hp
      rcases hp with h | h <;> rw [h] <;> rfl
    · intro p hp
      unfold DynamicListener.statusCheckPass at hp
      obtain ⟨t, htmem, hsome⟩ := List.mem_filterMap.mp hp
      obtain ⟨hmem, hpf⟩ := List.mem_filter.mp htmem
      rw [DynamicListener.pendingFilter, decide_eq_true_eq] at hpf
      refine ⟨t, hmem, DynamicListener.checkTransfer_key _ _ _ _ _ hsome, hpf, ?_⟩
      rcases hpf with h | h <;> rw [h] <;> rfl
  · intro now updateItem records
    constructor
    · intro r hr
      obtain ⟨_, hp⟩ := List.mem_filter.mp hr
      rw [decide_eq_true_eq] at hp
      rw [hp]; rfl
    · intro resp us h p hp
      simp only [StaticListener.handle_status_check] at h
      cases hrun : StaticListener.runStaticUpdates updateItem now
          (records.filter (fun r => decide (r.status = Status.TRANSFER_STARTED))) with
      | error e => simp only [hrun] at h; cases h
      | ok pr =>
        obtain ⟨n, us'⟩ := pr
        simp only [hrun] at h
        cases h
        obtain ⟨item, hit, hk, _⟩ :=
          StaticListener.runStaticUpdates_mem updateItem now _ n _ hrun p hp
        obtain ⟨hmem, hst⟩ := List.mem_filter.mp hit
        rw [decide_eq_true_eq] at hst
        exact ⟨item, hmem, hk, hst, by rw [hst]; rfl⟩

/-- C2 witness: one pending record per variant; the update each pass
applies is keyed to that record, which is in a non-terminal status. -/
theorem C2_terminal_never_updated_witness :
    (∃ t ∈ [(⟨"b0", some "t-1", some "c-1", Status.TRANSFER_STARTED⟩ :
        DynamicListener.TransferRecord)],
      ("b0", DynamicListener.mkUpdateData "2025-01-01" Status.COMPLETED
        [⟨some FileStatusCode.COMPLETED, none⟩]).1 = t.batch_id ∧
      (t.status = Status.TRANSFER_STARTED ∨ t.status = Status.DISCOVERY_COMPLETED) ∧
      t.status.isTerminal = false) ∧
    (∃ r ∈ [(⟨"bs", Status.TRANSFER_STARTED, 0, some 2⟩ : StaticListener.StaticRecord)],
      ("bs", (⟨Status.COMPLETED, 2, 0, 200, 200⟩ : StaticListener.StaticUpdate)).1 =
        r.batch_id ∧
      r.status = Status.TRANSFER_STARTED ∧ r.status.isTerminal = false) :=
  ⟨(C2_terminal_never_updated.1
      (fun _ _ => .ok [⟨some FileStatusCode.COMPLETED, none⟩]) (fun _ _ => .ok ())
      "2025-01-01" [⟨"b0", some "t-1", some "c-1", Status.TRANSFER_STARTED⟩]).2
      ("b0", DynamicListener.mkUpdateData "2025-01-01" Status.COMPLETED
        [⟨some FileStatusCode.COMPLETED, none⟩])
      (by rw [show DynamicListener.statusCheckPass
            (fun _ _ => .ok [⟨some FileStatusCode.COMPLETED, none⟩]) (fun _ _ => .ok ())
            "2025-01-01" [⟨"b0", some "t-1", some "c-1", Status.TRANSFER_STARTED⟩] =
            [("b0", DynamicListener.mkUpdateData "2025-01-01" Status.COMPLETED
              [⟨some FileStatusCode.COMPLETED, none⟩])] from rfl]
          exact List.mem_singleton_self _),
   (C2_terminal_never_updated.2 200 (fun _ _ => .ok ())
      [⟨"bs", Status.TRANSFER_STARTED, 0, some 2⟩]).2
      ⟨200, Body.msgCount "Transfer status check completed" "transfers_checked" 1⟩
      [("bs", ⟨Status.COMPLETED, 2, 0, 200, 200⟩)] rfl
      ("bs", ⟨Status.COMPLETED, 2, 0, 200, 200⟩) (List.mem_singleton_self _)⟩

/-- C3: a directory listing returns no path whose stat identified it as
a directory, every entry whose stat raised is kept (assumed to be a
file), and one file next to one subdirectory yields exactly the file's
path. -/
theorem C3_lister_excludes_directories (directory_path : String)
    (entries : List RetrieveIndex.DirEntry) :
    (∀ p ∈ RetrieveIndex.collectFiles directory_path entries,
      ∃ e ∈ entries, p = RetrieveIndex.entryPath directory_path e.filename ∧
        RetrieveIndex.identifiedAsDirectory e = false) ∧
    (∀ e ∈ entries, e.statResult = RetrieveIndex.StatOutcome.raised →
      RetrieveIndex.entryPath directory_path e.filename ∈
        RetrieveIndex.collectFiles directory_path entries) ∧
    (∀ fileName subdirName fileMode dirMode,
      fileMode &&& 0o040000 = 0 → dirMode &&& 0o040000 ≠ 0 →
      RetrieveIndex.collectFiles directory_path
        [⟨fileName, RetrieveIndex.StatOutcome.ok fileMode⟩,
         ⟨subdirName, RetrieveIndex.StatOutcome.ok dirMode⟩] =
        [RetrieveIndex.entryPath directory_path fileName]) := by
  refine ⟨?_, ?_, ?_⟩
  · intro p hp
    obtain ⟨e, he, hsome⟩ := List.mem_filterMap.mp hp
    by_cases hk : RetrieveIndex.keepsEntry e
    · rw [if_pos hk] at hsome
      cases hsome
      exact ⟨e, he, rfl, RetrieveIndex.keepsEntry_not_dir e hk⟩
    · rw [if_neg hk] at hsome
      cases hsome
  · intro e he hr
    refine List.mem_filterMap.mpr ⟨e, he, ?_⟩
    obtain ⟨fn, st⟩ := e
    simp only at hr
    subst hr
    rfl
  · intro fileName subdirName fileMode dirMode h1 h2
    simp [RetrieveIndex.collectFiles, RetrieveIndex.keepsEntry, h1, h2]

/-- C3 witness: a regular file (mode 0o100644), a subdirectory
(mode 0o040755) and an unstatable entry in /uploads. -/
theorem C3_lister_excludes_directories_witness :
    RetrieveIndex.collectFiles "/uploads"
      [⟨"a.txt", RetrieveIndex.StatOutcome.ok 33188⟩,
       ⟨"sub", RetrieveIndex.StatOutcome.ok 16877⟩] =
      [RetrieveIndex.entryPath "/uploads" "a.txt"] ∧
    RetrieveIndex.entryPath "/uploads" "weird" ∈
      RetrieveIndex.collectFiles "/uploads"
        [⟨"weird", RetrieveIndex.StatOutcome.raised⟩] :=
  ⟨(C3_lister_excludes_directories "/uploads" []).2.2 "a.txt" "sub" 33188 16877
     (by decide) (by decide),
   (C3_lister_excludes_directories "/uploads"
      [⟨"weird", RetrieveIndex.StatOutcome.raised⟩]).2.1
     ⟨"weird", RetrieveIndex.StatOutcome.raised⟩ (List.mem_singleton_self _) rfl⟩

/-- C4 counterexample: when ssh.connect succeeds but ssh.open_sftp
raises, the function still returns an empty list, but the connected SSH
session is left open on exit — no code path closes it — refuting
"on every exit path the opened SSH/SFTP session is closed". -/
theorem C4_counterexample :
    (RetrieveIndex.list_directory_files
      ⟨true, false, Except.ok []⟩ "/uploads").1 = [] ∧
    (RetrieveIndex.list_directory_files
      ⟨true, false, Except.ok []⟩ "/uploads").2.sshOpened = true ∧
    (RetrieveIndex.list_directory_files
      ⟨true, false, Except.ok []⟩ "/uploads").2.sshClosed = false :=
  ⟨rfl, rfl, rfl⟩

/-- C4 amended: on connection failure, SFTP-open failure or listing
failure the lister returns an empty sequence instead of raising; the
sessions opened are closed on the success and listing-failure paths
(whenever the SFTP channel was opened), and when the connection attempt
itself fails nothing was opened — but when open_sftp fails after a
successful connect the SSH session is left unclosed. -/
theorem C4_amended_session_cleanup (w : RetrieveIndex.SftpWorld)
    (directory_path : String) :
    (w.connectOk = false →
      RetrieveIndex.list_directory_files w directory_path =
        ([], ⟨false, false, false, false⟩)) ∧
    (w.openSftpOk = false →
      (RetrieveIndex.list_directory_files w directory_path).1 = []) ∧
    (w.connectOk = true → w.openSftpOk = true →
      ∀ e, w.listdirResult = .error e →
      RetrieveIndex.list_directory_files w directory_path =
        ([], ⟨true, true, true, true⟩)) ∧
    (w.openSftpOk = true →
      ((RetrieveIndex.list_directory_files w directory_path).2.sshOpened = true →
        (RetrieveIndex.list_directory_files w directory_path).2.sshClosed = true) ∧
      ((RetrieveIndex.list_directory_files w directory_path).2.sftpOpened = true →
        (RetrieveIndex.list_directory_files w directory_path).2.sftpClosed = true)) := by
  obtain ⟨c, o, ld⟩ := w
  refine ⟨?_, ?_, ?_, ?_⟩
  · intro hc
    simp only at hc
    subst hc
    rfl
  · intro ho
    simp only at ho
    subst ho
    cases c <;> rfl
  · intro hc ho e hld
    simp only at hc ho hld
    subst hc; subst ho; subst hld
    rfl
  · intro ho
    simp only at ho
    subst ho
    cases c with
    | false => exact ⟨(fun h => nomatch h), (fun h => nomatch h)⟩
    | true =>
      cases ld with
      | error e => exact ⟨fun _ => rfl, fun _ => rfl⟩
      | ok entries => exact ⟨fun _ => rfl, fun _ => rfl⟩

/-- C4 witness: concrete worlds for the connect-failure, open-failure
and listing-failure paths, and session cleanup on a successful run. -/
theorem C4_amended_session_cleanup_witness :
    RetrieveIndex.list_directory_files ⟨false, true, Except.ok []⟩ "/uploads" =
      ([], ⟨false, false, false, false⟩) ∧
    (RetrieveIndex.list_directory_files ⟨true, false, Except.ok []⟩ "/uploads").1 = [] ∧
    RetrieveIndex.list_directory_files ⟨true, true, Except.error "listing failed"⟩
      "/uploads" = ([], ⟨true, true, true, true⟩) ∧
    (RetrieveIndex.list_directory_files ⟨true, true, Except.ok []⟩
      "/uploads").2.sshClosed = true :=
  ⟨(C4_amended_session_cleanup _ _).1 rfl,
   (C4_amended_session_cleanup _ _).2.1 rfl,
   (C4_amended_session_cleanup _ _).2.2.1 rfl rfl "listing failed" rfl,
   ((C4_amended_session_cleanup ⟨true, true, Except.ok []⟩ "/uploads").2.2.2 rfl).1 rfl⟩

/-- C5: in the degraded time-based strategy, a scanned TRANSFER_STARTED
record whose elapsed time exceeds 120 seconds is marked COMPLETED with
files_successful equal to the record's stored files_count (default 0)
and files_failed equal to 0; at 120 seconds or less the record is left
unchanged, and the pass applies no update for it. -/
theorem C5_time_heuristic (now : Int) (r : StaticListener.StaticRecord) :
    (now - r.started_at > 120 →
      StaticListener.staticRecordUpdate now r =
        some ⟨Status.COMPLETED, r.files_count.getD 0, 0, now, now⟩) ∧
    (now - r.started_at ≤ 120 →
      StaticListener.staticRecordUpdate now r = none) ∧
    (∀ updateItem, r.status = Status.TRANSFER_STARTED →
      now - r.started_at ≤ 120 →
      StaticListener.handle_status_check (Except.ok [r]) updateItem now =
        .ok (⟨200, Body.msgCount "Transfer status check completed"
            "transfers_checked" 0⟩, [])) := by
  have hle : ∀ h : now - r.started_at ≤ 120,
      StaticListener.staticRecordUpdate now r = none := by
    intro h
    unfold StaticListener.staticRecordUpdate
    rw [if_neg (by omega)]
  refine ⟨?_, hle, ?_⟩
  · intro h
    unfold StaticListener.staticRecordUpdate
    rw [if_pos h]
  · intro updateItem hst h
    simp [StaticListener.handle_status_check, StaticListener.runStaticUpdates,
      hst, hle h]

/-- C5 witness: a record started at time 0 with files_count 2, checked
at times 200 (elapsed 200 > 120) and 100 (elapsed 100 ≤ 120). -/
theorem C5_time_heuristic_witness :
    StaticListener.staticRecordUpdate 200
      ⟨"bs", Status.TRANSFER_STARTED, 0, some 2⟩ =
      some ⟨Status.COMPLETED, 2, 0, 200, 200⟩ ∧
    StaticListener.staticRecordUpdate 100
      ⟨"bs", Status.TRANSFER_STARTED, 0, some 2⟩ = none ∧
    StaticListener.handle_status_check
      (Except.ok [⟨"bs", Status.TRANSFER_STARTED, 0, some 2⟩])
      (fun _ _ => .ok ()) 100 =
      .ok (⟨200, Body.msgCount "Transfer status check completed"
          "transfers_checked" 0⟩, []) :=
  ⟨(C5_time_heuristic 200 ⟨"bs", Status.TRANSFER_STARTED, 0, some 2⟩).1 (by decide),
   (C5_time_heuristic 100 ⟨"bs", Status.TRANSFER_STARTED, 0, some 2⟩).2.1 (by decide),
   (C5_time_heuristic 100 ⟨"bs", Status.TRANSFER_STARTED, 0, some 2⟩).2.2
     _ rfl (by decide)⟩

/-- C6 counterexample: the dynamic status-check handler with the
table-name environment variable unset returns a successful statusCode
200 response ('DynamoDB not configured') instead of failing — refuting
"a missing required environment value is always fatal and propagated". -/
theorem C6_counterexample :
    (DynamicListener.lambda_handler none (Except.ok [])
      (fun _ _ => Except.ok []) (fun _ _ => Except.ok ())
      "2025-01-01T00:00:00").1.statusCode = 200 ∧
    (DynamicListener.lambda_handler none (Except.ok [])
      (fun _ _ => Except.ok []) (fun _ _ => Except.ok ())
      "2025-01-01T00:00:00").1.body = Body.text "DynamoDB not configured" ∧
    (DynamicListener.lambda_handler none (Except.ok [])
      (fun _ _ => Except.ok []) (fun _ _ => Except.ok ())
      "2025-01-01T00:00:00").2 = [] :=
  ⟨rfl, rfl, rfl⟩

/-- C6 amended: a missing required environment value is fatal and
propagated in the retrieve handler, the send handler, the dynamic
retrieve handler, and the static listener's module initialisation —
but the dynamic status-check handler treats a missing table name as
non-fatal and returns statusCode 200 with body 'DynamoDB not
configured', performing no scan and applying no updates. -/
theorem C6_amended_config_fatal :
    (∀ scan listResults updateItem now,
      DynamicListener.lambda_handler none scan listResults updateItem now =
        (⟨200, Body.text "DynamoDB not configured"⟩, [])) ∧
    (∀ b pfx wt sd ep sa get_creds w start,
      RetrieveIndex.handler ⟨none, b, pfx, wt, sd, ep, sa⟩ get_creds w start =
        .error "KeyError: CONNECTOR_ID") ∧
    (∀ start b k, SendIndex.handler none start b k =
      .error "KeyError: CONNECTOR_ID") ∧
    (∀ bkt pfx sd sdl lov2 getObj sft delObj,
      DynamicIndex.lambda_handler none bkt pfx sd sdl lov2 getObj sft delObj =
        (.error "KeyError: CONNECTOR_ID", [])) ∧
    StaticListener.moduleInit none = .error "KeyError: DYNAMODB_TABLE" := by
  refine ⟨fun _ _ _ _ => rfl, fun b _ _ _ _ _ _ _ _ => ?_,
    fun _ _ _ => rfl, fun bkt _ _ _ _ _ _ _ => ?_, rfl⟩
  · cases b <;> rfl
  · cases bkt <;> rfl

/-- C7 counterexample: an unexpected error in the dynamic status-check
path (the scan raising) is caught and converted to a statusCode 500
response, not the statusCode 200 the claim states. -/
theorem C7_counterexample :
    (DynamicListener.lambda_handler (some "transfers") (Except.error "boom")
      (fun _ _ => Except.ok []) (fun _ _ => Except.ok ())
      "2025-01-01T00:00:00").1 = ⟨500, Body.errField "boom"⟩ ∧
    ((DynamicListener.lambda_handler (some "transfers") (Except.error "boom")
      (fun _ _ => Except.ok []) (fun _ _ => Except.ok ())
      "2025-01-01T00:00:00").1.statusCode == 200) = false :=
  ⟨rfl, rfl⟩

/-- C7 amended: an unexpected error in a pure-transfer path (retrieve
handler, dynamic retrieve handler, send handler) is re-raised to the
invoking platform, while an unexpected error in a status-check path
(dynamic listener, static listener) is caught and converted into a
response with statusCode 500 (not 200). -/
theorem C7_amended_error_policy :
    (∀ cid b pfx sd ep sa creds e,
      RetrieveIndex.handler
        ⟨some cid, some b, pfx, some "directory", sd, some ep, some sa⟩
        (fun _ => .ok creds)
        ⟨true, true, .ok [⟨"f.txt", RetrieveIndex.StatOutcome.raised⟩]⟩
        (fun _ _ => .error e) = .error e) ∧
    (∀ cid bkt pfx sd lid k e (delObj : String → Except String Unit),
      (DynamicIndex.lambda_handler (some cid) (some bkt) pfx sd
        (fun _ _ => .ok lid) (fun _ _ => .ok (some k))
        (fun _ => .ok ["/uploads/f.txt"]) (fun _ => .error e) delObj).1 =
        .error e) ∧
    (∀ cid b k e, SendIndex.handler (some cid) (fun _ => .error e) b k =
      .error e) ∧
    (∀ tbl e listResults updateItem now,
      DynamicListener.lambda_handler (some tbl) (.error e)
        listResults updateItem now = (⟨500, Body.errField e⟩, [])) ∧
    (∀ e updateItem now,
      StaticListener.lambda_handler ⟨none, none, none⟩ (.error e)
        updateItem now = (⟨500, Body.errField e⟩, [])) := by
  exact ⟨fun _ _ _ _ _ _ _ _ => rfl, fun _ _ _ _ _ _ _ _ => rfl,
    fun _ _ _ _ => rfl, fun _ _ _ _ _ => rfl, fun _ _ _ => rfl⟩

/-- C8: a per-record exception inside the dynamic reconciliation loop
(raised while checking or updating that one record) is caught, and the
pass over the remaining records is exactly the pass without the failing
record — no pass-wide abort. -/
theorem C8_per_record_isolation
    (listResults : String → String → Except String (List FileTransferResult))
    (updateItem : String → DynamicListener.UpdateData → Except String Unit)
    (now : String) (t : DynamicListener.TransferRecord)
    (rest : List DynamicListener.TransferRecord) (e : String)
    (h : DynamicListener.checkTransferRaw listResults updateItem now t = .error e) :
    DynamicListener.statusCheckPass listResults updateItem now (t :: rest) =
      DynamicListener.statusCheckPass listResults updateItem now rest := by
  have hc : DynamicListener.checkTransfer listResults updateItem now t = none := by
    unfold DynamicListener.checkTransfer
    rw [h]
  unfold DynamicListener.statusCheckPass
  by_cases hp : DynamicListener.pendingFilter t
  · rw [List.filter_cons_of_pos hp, List.filterMap_cons_none hc]
  · rw [List.filter_cons_of_neg (by simp [hp])]

/-- C8 witness: the connector call fails for the first record ("boom")
but the second record is still checked and updated. -/
theorem C8_per_record_isolation_witness :
    DynamicListener.statusCheckPass
      (fun _ tid => if tid = "t-0" then .error "boom"
        else .ok [⟨some FileStatusCode.COMPLETED, none⟩])
      (fun _ _ => .ok ()) "2025-01-01T00:00:00"
      [⟨"b0", some "t-0", some "c-0", Status.TRANSFER_STARTED⟩,
       ⟨"b1", some "t-1", some "c-1", Status.TRANSFER_STARTED⟩] =
    DynamicListener.statusCheckPass
      (fun _ tid => if tid = "t-0" then .error "boom"
        else .ok [⟨some FileStatusCode.COMPLETED, none⟩])
      (fun _ _ => .ok ()) "2025-01-01T00:00:00"
      [⟨"b1", some "t-1", some "c-1", Status.TRANSFER_STARTED⟩] :=
  C8_per_record_isolation _ _ _ _ _ "boom" (by rfl)

/-- C9: a storage-event trigger with bucket b and object key k invokes
the connector's transfer-start with exactly the single send path
concatenating slash, b, slash, k, and returns statusCode 200 when the
call succeeds; when the call fails the exception propagates to the
invoking platform. -/
theorem C9_send_path (cid bucket objKey transfer_id e : String) :
    (∀ start : SendIndex.SendCall → Except String String,
      start ⟨cid, ["/" ++ bucket ++ "/" ++ objKey]⟩ = .ok transfer_id →
      SendIndex.handler (some cid) start bucket objKey =
        .ok (⟨200, Body.text "Transfer initiated"⟩,
          [⟨cid, ["/" ++ bucket ++ "/" ++ objKey]⟩])) ∧
    (∀ start : SendIndex.SendCall → Except String String,
      start ⟨cid, ["/" ++ bucket ++ "/" ++ objKey]⟩ = .error e →
      SendIndex.handler (some cid) start bucket objKey = .error e) := by
  constructor <;> intro start h <;> simp [SendIndex.handler, h]

/-- C9 witness: bucket b, key k/f.txt, send path /b/k/f.txt; one
succeeding and one failing transfer-start call. -/
theorem C9_send_path_witness :
    SendIndex.handler (some "c-1") (fun _ => .ok "tid-1") "b" "k/f.txt" =
      .ok (⟨200, Body.text "Transfer initiated"⟩, [⟨"c-1", ["/b/k/f.txt"]⟩]) ∧
    SendIndex.handler (some "c-1") (fun _ => .error "denied") "b" "k/f.txt" =
      .error "denied" :=
  ⟨(C9_send_path "c-1" "b" "k/f.txt" "tid-1" "denied").1 _ rfl,
   (C9_send_path "c-1" "b" "k/f.txt" "tid-1" "denied").2 _ rfl⟩

/-- C10: when the listing result file has not appeared after the single
fixed 5-second wait (list_objects_v2 returns no Contents), the dynamic
retrieval handler returns statusCode 200 with message 'Directory listing
in progress'; its trace shows it started the listing, slept 5 seconds
and listed objects, and contains no start_file_transfer, no status-record
write and no describe_execution probe — and since every entered run of
the module's 2-second/30-attempt polling loop begins with a
describe_execution probe, the polling loop was not invoked on this
path. -/
theorem C10_listing_in_progress (cid bucket : String) (pfx sd : Option String)
    (lid : String) (getObj : String → Except String (List String))
    (sft : List String → Except String String)
    (delObj : String → Except String Unit) :
    (DynamicIndex.lambda_handler (some cid) (some bucket) pfx sd
        (fun _ _ => .ok lid) (fun _ _ => .ok none) getObj sft delObj =
      (.ok ⟨200, Body.msgOnly "Directory listing in progress"⟩,
        [.startDirectoryListing (sd.getD "/uploads")
            ("/" ++ bucket ++ "/" ++ rstripSlash (pfx.getD "retrieved")),
         .sleepSeconds 5,
         .listObjectsV2 bucket (rstripSlash (pfx.getD "retrieved") ++ "/" ++
            cid ++ "-" ++ lid ++ ".json")])) ∧
    ((DynamicIndex.lambda_handler (some cid) (some bucket) pfx sd
        (fun _ _ => .ok lid) (fun _ _ => .ok none) getObj sft delObj).2.all
      (fun c => !DynamicIndex.isStartFileTransfer c &&
        !DynamicIndex.isUpdateRecord c &&
        !DynamicIndex.isDescribeExecution c) = true) ∧
    (∀ describe listing_id,
      (DynamicIndex.list_directory_files describe listing_id).2.head? =
        some (DynamicIndex.DynCall.describeExecution listing_id)) := by
  refine ⟨rfl, rfl, ?_⟩
  intro describe listing_id
  exact DynamicIndex.pollLoop_head describe listing_id 29 0
